import Mathlib

/-!
Shallow embedding of `fractal_timer.py`: a zone registry (two static
tables), a daily timer (`FractalState`) and a marathon timer
(`MarathonState`).  Timestamps are naturals (Python `int(time())`);
Python `None` is `Option.none`; Python dict attribute presence on
`FractalState` objects is an outer `Option` layer (the class initializer
is named `__init`, not `__init__`, so a fresh object has no attributes).
-/

/-- The `MAP_TO_NAME` dict from the source, as an association list. -/
def MAP_TO_NAME : List (Nat × String) :=
  [ (956, "Aetherblade"),
    (951, "Aquatic Ruins"),
    (960, "Captain Mai Trin Boss"),
    (1164, "Chaos"),
    (952, "Cliffside"),
    (959, "Molten Boss"),
    (955, "Molten Furnace"),
    (1177, "Nightmare"),
    (1205, "Shattered Observatory"),
    (948, "Snowblind"),
    (958, "Solid Ocean"),
    (949, "Swampland"),
    (957, "Thaumanova Reactor"),
    (1267, "Twilight Oasis"),
    (947, "Uncategorized"),
    (953, "Underground Facility"),
    (950, "Urban Battleground"),
    (954, "Volcanic") ]

/-- The `MAP_TO_LEVELS` dict from the source. -/
def MAP_TO_LEVELS : List (Nat × List Nat) :=
  [ (956, [14, 46, 65, 71, 96]),
    (951, [7, 26, 61, 76]),
    (960, [18, 42, 73, 95]),
    (1164, [13, 30, 38, 54, 63, 88, 98]),
    (952, [6, 22, 33, 47, 69, 82, 94]),
    (959, [10, 40, 70, 90]),
    (955, [9, 23, 39, 58, 83]),
    (1177, [24, 49, 74, 99, 101]),
    (1205, [25, 50, 75, 100, 102]),
    (948, [3, 27, 37, 51, 68, 86, 93]),
    (958, [20, 35, 45, 60, 80]),
    (949, [5, 21, 32, 56, 67, 77, 89]),
    (957, [15, 34, 48, 55, 64, 84, 97]),
    (1267, [16, 41, 59, 87]),
    (947, [2, 12, 36, 44, 62, 79, 91]),
    (953, [8, 17, 29, 43, 53, 81]),
    (950, [4, 11, 31, 57, 66, 78, 85]),
    (954, [1, 19, 28, 52, 72, 92]) ]

/-- `LEVEL_TO_MAP = {l: m for m, v in MAP_TO_LEVELS.items() for l in v}`,
modelled as a lookup (stage numbers are pairwise distinct across zones, so
the first match is the unique one); `.get(l)` returns `none` for a stage
number hosted by no zone. -/
def LEVEL_TO_MAP (l : Nat) : Option Nat :=
  (MAP_TO_LEVELS.find? (fun p => p.2.contains l)).map (fun p => p.1)

/-- `MAP_TO_NAME.get(m)`: display name of a zone, `none` when untracked. -/
def mapName (m : Nat) : Option String :=
  (MAP_TO_NAME.find? (fun p => p.1 == m)).map (fun p => p.2)

/-- `ifN(v, d)` from the source: `v if v is not None else d`. -/
def ifN (v : Option Nat) (d : Nat) : Nat := v.getD d

/-- Two-digit rendering of a number below 100 (Python `%02d` inside
`timedelta.__str__`). -/
def pad2 (n : Nat) : String :=
  if n < 10 then "0" ++ toString n else toString n

/-- `str(timedelta(seconds=secs))`: days are floor-divided (so a negative
duration renders as Python does), the remainder as `H:MM:SS`. -/
def timedeltaStr (secs : Int) : String :=
  let d : Int := secs.fdiv 86400
  let r : Nat := (secs - d * 86400).toNat
  let hms := toString (r / 3600) ++ ":" ++ pad2 (r % 3600 / 60) ++ ":" ++ pad2 (r % 60)
  if d = 0 then hms
  else if d = 1 || d = -1 then toString d ++ " day, " ++ hms
  else toString d ++ " days, " ++ hms

/-- `strtime(start, end) = str(timedelta(seconds=end - start))`. -/
def strtime (s e : Nat) : String := timedeltaStr ((e : Int) - (s : Int))

/-- One entry of the marathon `levels` array:
`{"start": <int|null>, "end": <int|null>}`. -/
structure StageRec where
  start? : Option Nat
  end? : Option Nat
deriving DecidableEq

def defaultRec : StageRec := ⟨none, none⟩

/-- Read `levels[i]` (all reads in the claims are in bounds; the default
is never hit on documents of length 102). -/
def getRec (levels : List StageRec) (i : Nat) : StageRec :=
  levels.getD i defaultRec

/-- Python list index `level-1` for `0 ≤ level`: index `-1` (i.e. the
last element, index `n-1`) when `level = 0`, else `level - 1`. -/
def pyIdx (n lvl : Nat) : Nat := if lvl = 0 then n - 1 else lvl - 1

/-- The persisted marathon document
`{"start": .., "end": .., "levels": [..]}`. -/
structure MarathonDoc where
  dstart : Option Nat
  dend : Option Nat
  levels : List StageRec
deriving DecidableEq

/-- `MarathonState`: the document plus the 1-based cursor `self.level`. -/
structure MarathonState where
  state : MarathonDoc
  level : Nat
deriving DecidableEq

/-- The fresh document built by `MarathonState.__init__`:
`{'start': None, 'end': None, 'levels': [{'start': None, 'end': None} for _ in range(102)]}`. -/
def freshDoc : MarathonDoc :=
  ⟨none, none, List.replicate 102 defaultRec⟩

/-- `completed_levels = [i for i, x in enumerate(levels) if x['end'] is not None]`. -/
def completedLevels (levels : List StageRec) : List Nat :=
  (List.range levels.length).filter (fun i => (getRec levels i).end? ≠ none)

/-- `self.level = max(completed_levels) + 1 if completed_levels else 0`. -/
def loadLevel (levels : List StageRec) : Nat :=
  let c := completedLevels levels
  if c.isEmpty then 0 else c.foldl max 0 + 1

/-- `MarathonState.__init__(reload_state, ...)`: start from the fresh
document, replace it by the persisted one when reloading and the file
exists (`file = some doc`), then derive the cursor. -/
def MarathonState.mk0 (reload_state : Bool) (file : Option MarathonDoc) : MarathonState :=
  let doc := if reload_state then (match file with | some d => d | none => freshDoc) else freshDoc
  ⟨doc, loadLevel doc.levels⟩

/-- `MarathonState.save_state` writes `self.state` in full; JSON of
ints/nulls round-trips, so persistence is the identity on the document. -/
def MarathonState.save_state (s : MarathonState) : MarathonDoc := s.state

/-- `MarathonState.update(current_map)` with `now = int(time())`. -/
def MarathonState.update (s : MarathonState) (current_map now : Nat) : MarathonState :=
  let levels := s.state.levels
  let i := pyIdx levels.length s.level
  if some current_map = LEVEL_TO_MAP s.level then
    -- reset case
    if (getRec levels i).end? ≠ none then
      { s with state := { s.state with levels := levels.set i { getRec levels i with end? := none } } }
    else s
  else
    -- stop case
    let s1 :=
      if (getRec levels i).start? ≠ none ∧ (getRec levels i).end? = none then
        { s with state := { s.state with levels := levels.set i { getRec levels i with end? := some now } } }
      else s
    -- start case
    if some current_map = LEVEL_TO_MAP (s.level + 1) then
      let j := pyIdx s1.state.levels.length (s1.level + 1)
      { state := { s1.state with levels := s1.state.levels.set j { getRec s1.state.levels j with start? := some now } },
        level := s1.level + 1 }
    else s1

/-- `MarathonState.start`: `self.state['start'] = ifN(self.state['start'], now)`. -/
def MarathonState.start (s : MarathonState) (now : Nat) : MarathonState :=
  { s with state := { s.state with dstart := some (ifN s.state.dstart now) } }

/-- `MarathonState.stop`: `self.state['end'] = now`. -/
def MarathonState.stop (s : MarathonState) (now : Nat) : MarathonState :=
  { s with state := { s.state with dend := some now } }

/-- A user/driver event fed to the marathon machine. -/
inductive MOp where
  | startOp : MOp
  | stopOp : MOp
  | updateOp : Nat → MOp
deriving DecidableEq

/-- One event together with its wall-clock time. -/
def mstep (s : MarathonState) (op : MOp × Nat) : MarathonState :=
  match op.1 with
  | .startOp => MarathonState.start s op.2
  | .stopOp => MarathonState.stop s op.2
  | .updateOp z => MarathonState.update s z op.2

/-- Run a sequence of events. -/
def mrun (s : MarathonState) (ops : List (MOp × Nat)) : MarathonState :=
  ops.foldl mstep s

/-- A fresh, non-reloaded marathon machine. -/
def freshMarathon : MarathonState := MarathonState.mk0 false none

example : freshMarathon.level = 0 := by decide
example : LEVEL_TO_MAP 0 = none := by decide
example : LEVEL_TO_MAP 1 = some 954 := by decide
example : LEVEL_TO_MAP 103 = none := by decide
example : (MarathonState.update freshMarathon 954 3).level = 1 := by decide
example : getRec (MarathonState.update freshMarathon 954 3).state.levels 0 = ⟨some 3, none⟩ := by decide

/-! ## The daily timer: `FractalState`

The class initializer is spelled `__init` (one trailing underscore
short), so `FractalState()` produces an object with an empty attribute
dict.  Each field below is therefore an *outer* `Option`: `none` means
the attribute does not exist on the object; `some v` means the attribute
exists and holds the Python value `v` (itself optional where the source
stores `None`).  `astart`/`aend` model the attributes written as
`self.start`/`self.end`.  Reading `self.start` when the attribute is
absent does NOT raise: it resolves to the bound method `start`, and the
subtraction inside `strtime` then raises `TypeError`. -/

/-- The two runtime errors the daily timer can raise. -/
inductive PyErr where
  | attributeError : PyErr
  | typeError : PyErr
deriving DecidableEq

/-- A `FractalState` object's attribute dict. -/
structure FractalState where
  astart : Option Nat
  aend : Option (Option Nat)
  current_map : Option (Option Nat)
  current_map_name : Option String
  current_start : Option (Option Nat)
  current_end : Option (Option Nat)
deriving DecidableEq

/-- `FractalState()` — `__init` is never called, no attribute exists. -/
def freshFractal : FractalState := ⟨none, none, none, none, none, none⟩

/-- Read an attribute that has no method fallback: absent ⇒ `AttributeError`. -/
def getAttr {α : Type} (o : Option α) : Except PyErr α :=
  match o with
  | some v => Except.ok v
  | none => Except.error PyErr.attributeError

/-- Python truthiness of an `Optional[int]`: `None` and `0` are falsy. -/
def truthy (v : Option Nat) : Bool :=
  match v with
  | some k => k != 0
  | none => false

/-- `FractalState.total_time(now) = strtime(self.start, ifN(self.end, now))`.
`self.start` is evaluated first and never raises (absent ⇒ the bound
method); `self.end` absent raises `AttributeError`; then the subtraction
raises `TypeError` when `self.start` resolved to the method. -/
def FractalState.total_time (s : FractalState) (now : Nat) : Except PyErr String :=
  match s.aend with
  | none => Except.error PyErr.attributeError
  | some e =>
    match s.astart with
    | none => Except.error PyErr.typeError
    | some st => Except.ok (strtime st (ifN e now))

/-- `FractalState.instance_time(now)`: condition `if self.current_start`
is evaluated first (absent ⇒ `AttributeError`; `None`/`0` falsy ⇒ `''`),
then `strtime(self.current_start, ifN(self.current_end, now))`. -/
def FractalState.instance_time (s : FractalState) (now : Nat) : Except PyErr String :=
  match s.current_start with
  | none => Except.error PyErr.attributeError
  | some cs =>
    if truthy cs then
      match s.current_end with
      | none => Except.error PyErr.attributeError
      | some ce => Except.ok (strtime (cs.getD 0) (ifN ce now))
    else Except.ok ""

/-- The display triple every operation returns. -/
abbrev Triple := String × String × String

instance {ε α : Type} [DecidableEq ε] [DecidableEq α] : DecidableEq (Except ε α) :=
  fun a b =>
    match a, b with
    | Except.ok x, Except.ok y =>
      if h : x = y then isTrue (by rw [h]) else isFalse (fun hh => h (by cases hh; rfl))
    | Except.error x, Except.error y =>
      if h : x = y then isTrue (by rw [h]) else isFalse (fun hh => h (by cases hh; rfl))
    | Except.ok _, Except.error _ => isFalse (fun hh => by cases hh)
    | Except.error _, Except.ok _ => isFalse (fun hh => by cases hh)

example : (Except.error PyErr.typeError : Except PyErr Triple) ≠ Except.error PyErr.attributeError := by decide

/-- `self.log(action, now)` evaluates `self.total_time(now)`,
`self.instance_time(now)`, `self.current_map`, `self.current_map_name`
(left to right), then the method's
`return self.total_time(now), self.current_map_name, self.instance_time(now)`
recomputes the same pure values. -/
def flogAndReturn (s : FractalState) (now : Nat) : Except PyErr Triple :=
  match s.total_time now with
  | Except.error e => Except.error e
  | Except.ok tt =>
    match s.instance_time now with
    | Except.error e => Except.error e
    | Except.ok it =>
      match s.current_map with
      | none => Except.error PyErr.attributeError
      | some _ =>
        match s.current_map_name with
        | none => Except.error PyErr.attributeError
        | some cn => Except.ok (tt, cn, it)

/-- A bare `return self.total_time(now), self.current_map_name,
self.instance_time(now)` (the branches of `update` with no `log` call),
components evaluated left to right. -/
def freturnTriple (s : FractalState) (now : Nat) : Except PyErr Triple :=
  match s.total_time now with
  | Except.error e => Except.error e
  | Except.ok tt =>
    match s.current_map_name with
    | none => Except.error PyErr.attributeError
    | some cn =>
      match s.instance_time now with
      | Except.error e => Except.error e
      | Except.ok it => Except.ok (tt, cn, it)

/-- `FractalState.update(current_map)`.  Returns the mutated object (the
mutations that happened before any raise stick) and either the display
triple or the error raised. -/
def FractalState.update (s : FractalState) (current_map now : Nat) :
    FractalState × Except PyErr Triple :=
  match s.current_map with
  | none => (s, Except.error PyErr.attributeError)
  | some cm =>
    if cm = some current_map then
      (s, freturnTriple s now)
    else if (mapName current_map).isSome then
      let s1 : FractalState :=
        { s with current_map := some (some current_map),
                 current_map_name := some ((mapName current_map).getD ""),
                 current_start := some (some now),
                 current_end := some none }
      (s1, flogAndReturn s1 now)
    else
      match cm with
      | some _ =>
        let s1 : FractalState := { s with current_map := some none, current_end := some (some now) }
        (s1, flogAndReturn s1 now)
      | none => (s, freturnTriple s now)

/-- `FractalState.stop()`: sets `self.current_end` and `self.end`, then logs. -/
def FractalState.stop (s : FractalState) (now : Nat) :
    FractalState × Except PyErr Triple :=
  let s1 : FractalState := { s with current_end := some (some now), aend := some (some now) }
  (s1, flogAndReturn s1 now)

/-- `FractalState.start()`: (re)sets every attribute, then logs
(`self` is only written, never read). -/
def FractalState.start (_s : FractalState) (now : Nat) :
    FractalState × Except PyErr Triple :=
  let s1 : FractalState :=
    { astart := some now, aend := some none,
      current_map := some none, current_map_name := some "",
      current_start := some none, current_end := some none }
  (s1, flogAndReturn s1 now)

example : (FractalState.stop freshFractal 7).2 = Except.error PyErr.typeError := by decide
example : (FractalState.update freshFractal 956 7).2 = Except.error PyErr.attributeError := by decide
example : (FractalState.start freshFractal 7).2 =
    Except.ok ("0:00:00", "", "") := by decide

/-! ## Helper lemmas -/

lemma getRec_set_self {l : List StageRec} {i : Nat} (r : StageRec) (h : i < l.length) :
    getRec (l.set i r) i = r := by
  simp [getRec, List.getD_eq_getElem?_getD, List.getElem?_set_self h]

lemma getRec_set_ne {l : List StageRec} {i j : Nat} (r : StageRec) (h : i ≠ j) :
    getRec (l.set i r) j = getRec l j := by
  simp [getRec, List.getD_eq_getElem?_getD, List.getElem?_set_ne h]

/-- Every stage number appearing in the registry lies in `1..102`. -/
lemma level_to_map_bound {n : Nat} (h : LEVEL_TO_MAP n ≠ none) : 1 ≤ n ∧ n ≤ 102 := by
  unfold LEVEL_TO_MAP at h
  rw [Ne, Option.map_eq_none', ← Ne, Option.ne_none_iff_isSome, List.find?_isSome] at h
  obtain ⟨p, hp, hc⟩ := h
  rw [List.contains_iff_exists_mem_beq] at hc
  obtain ⟨l, hl, hbeq⟩ := hc
  have hn : n = l := by exact beq_iff_eq.mp hbeq
  subst hn
  have hall : ∀ p ∈ MAP_TO_LEVELS, ∀ l ∈ p.2, 1 ≤ l ∧ l ≤ 102 := by decide
  exact hall p hp n hl

/-- One `update` call never decreases the cursor. -/
lemma level_le_update (s : MarathonState) (z now : Nat) :
    s.level ≤ (MarathonState.update s z now).level := by
  simp only [MarathonState.update]
  split
  · split <;> exact Nat.le_refl _
  · split
    · split <;> exact Nat.le_succ _
    · split <;> exact Nat.le_refl _

/-- C1: For every sequence of update calls on a SequenceTimer
(`MarathonState`), the cursor is monotonically non-decreasing: no call
ever decreases it, and the reset branch only clears the current stage's
`end` timestamp (leaving everything else, the cursor included,
unchanged). -/
theorem C1_cursor_monotone :
    (∀ (s : MarathonState) (tr : List (Nat × Nat)),
       s.level ≤ (tr.foldl (fun t p => MarathonState.update t p.1 p.2) s).level) ∧
    (∀ (s : MarathonState) (z now : Nat),
       some z = LEVEL_TO_MAP s.level →
       (getRec s.state.levels (pyIdx s.state.levels.length s.level)).end? ≠ none →
       MarathonState.update s z now =
         { s with state := { s.state with
             levels := s.state.levels.set (pyIdx s.state.levels.length s.level)
               { getRec s.state.levels (pyIdx s.state.levels.length s.level) with end? := none } } }) := by
  constructor
  · intro s tr
    induction tr generalizing s with
    | nil => exact Nat.le_refl _
    | cons p t ih =>
      exact Nat.le_trans (level_le_update s p.1 p.2) (ih _)
  · intro s z now h1 h2
    simp only [MarathonState.update]
    rw [if_pos h1, if_pos h2]

/-- A concrete state at cursor 1 whose first stage is completed. -/
def w1State : MarathonState :=
  ⟨⟨none, none, (List.replicate 102 defaultRec).set 0 ⟨some 1, some 2⟩⟩, 1⟩

theorem C1_cursor_monotone_witness :
    (freshMarathon.level ≤
      (([(954, 1), (947, 2)] : List (Nat × Nat)).foldl
        (fun t p => MarathonState.update t p.1 p.2) freshMarathon).level) ∧
    (some 954 = LEVEL_TO_MAP w1State.level) ∧
    ((getRec w1State.state.levels (pyIdx w1State.state.levels.length w1State.level)).end? ≠ none) ∧
    MarathonState.update w1State 954 5 =
      { w1State with state := { w1State.state with
          levels := w1State.state.levels.set (pyIdx w1State.state.levels.length w1State.level)
            { getRec w1State.state.levels (pyIdx w1State.state.levels.length w1State.level) with end? := none } } } :=
  ⟨C1_cursor_monotone.1 freshMarathon [(954, 1), (947, 2)], by decide, by decide,
   C1_cursor_monotone.2 w1State 954 5 (by decide) (by decide)⟩

/-! ## C3: order and co-firing of the update branches -/

/-- The reset block of `MarathonState.update` (the body of the branch
guarded by `current_map == LEVEL_TO_MAP.get(self.level)`). -/
def resetPhase (s : MarathonState) : MarathonState :=
  let levels := s.state.levels
  let i := pyIdx levels.length s.level
  if (getRec levels i).end? ≠ none then
    { s with state := { s.state with levels := levels.set i { getRec levels i with end? := none } } }
  else s

/-- The stop block of `MarathonState.update` (first sub-branch of the
`else`). -/
def stopPhase (s : MarathonState) (now : Nat) : MarathonState :=
  let levels := s.state.levels
  let i := pyIdx levels.length s.level
  if (getRec levels i).start? ≠ none ∧ (getRec levels i).end? = none then
    { s with state := { s.state with levels := levels.set i { getRec levels i with end? := some now } } }
  else s

/-- The start block of `MarathonState.update` (second sub-branch of the
`else`, evaluated after the stop block). -/
def startPhase (s : MarathonState) (z now : Nat) : MarathonState :=
  if some z = LEVEL_TO_MAP (s.level + 1) then
    let j := pyIdx s.state.levels.length (s.level + 1)
    { state := { s.state with levels := s.state.levels.set j { getRec s.state.levels j with start? := some now } },
      level := s.level + 1 }
  else s

/-- A concrete state at cursor 1 whose first stage is in progress. -/
def w2State : MarathonState :=
  ⟨⟨none, none, (List.replicate 102 defaultRec).set 0 ⟨some 1, none⟩⟩, 1⟩

/-- C3: when the fed zone id differs from the current stage's zone, a
single `update` call is exactly the stop block followed by the start
block (so both can fire in one call, in that order), and the reset
block is what runs — to the exclusion of the other two — when the fed
zone id equals the current stage's zone.  The final conjunct exhibits a
concrete call in which both the stop and the start sub-branches fire:
stage 1 is closed at `now` and stage 2 is opened at `now` in the same
call. -/
theorem C3_stop_then_start :
    (∀ (s : MarathonState) (z now : Nat),
       some z ≠ LEVEL_TO_MAP s.level →
       MarathonState.update s z now = startPhase (stopPhase s now) z now) ∧
    (∀ (s : MarathonState) (z now : Nat),
       some z = LEVEL_TO_MAP s.level →
       MarathonState.update s z now = resetPhase s) ∧
    (some 947 ≠ LEVEL_TO_MAP w2State.level ∧
     (getRec w2State.state.levels 0).start? ≠ none ∧
     (getRec w2State.state.levels 0).end? = none ∧
     some 947 = LEVEL_TO_MAP (w2State.level + 1) ∧
     (MarathonState.update w2State 947 5).level = 2 ∧
     getRec (MarathonState.update w2State 947 5).state.levels 0 = ⟨some 1, some 5⟩ ∧
     getRec (MarathonState.update w2State 947 5).state.levels 1 = ⟨some 5, none⟩) := by
  refine ⟨?_, ?_, by decide, by decide, by decide, by decide, by decide, by decide, by decide⟩
  · intro s z now h
    simp only [MarathonState.update, stopPhase, startPhase]
    rw [if_neg h]
    by_cases hstop : (getRec s.state.levels (pyIdx s.state.levels.length s.level)).start? ≠ none ∧
        (getRec s.state.levels (pyIdx s.state.levels.length s.level)).end? = none
    · rw [if_pos hstop]
    · rw [if_neg hstop]
  · intro s z now h
    simp only [MarathonState.update, resetPhase]
    rw [if_pos h]

theorem C3_stop_then_start_witness :
    MarathonState.update w2State 947 5 = startPhase (stopPhase w2State 5) 947 5 ∧
    MarathonState.update w1State 954 5 = resetPhase w1State :=
  ⟨C3_stop_then_start.1 w2State 947 5 (by decide),
   C3_stop_then_start.2.1 w1State 954 5 (by decide)⟩

/-! ## C7: marathon `start` is idempotent on the session start -/

/-- C7: `MarathonState.start` sets the session start to `now` only when
it is unset; a second (or later) call leaves the stored session start
unchanged, and nothing else of the state is touched. -/
theorem C7_start_idempotent :
    ∀ (s : MarathonState) (n1 n2 : Nat),
      (s.state.dstart = none → MarathonState.start s n1 = { s with state := { s.state with dstart := some n1 } }) ∧
      (∀ t, s.state.dstart = some t → MarathonState.start s n1 = { s with state := { s.state with dstart := some t } }) ∧
      MarathonState.start (MarathonState.start s n1) n2 = MarathonState.start s n1 := by
  intro s n1 n2
  refine ⟨?_, ?_, ?_⟩
  · intro h
    simp [MarathonState.start, ifN, h]
  · intro t h
    simp [MarathonState.start, ifN, h]
  · cases hd : s.state.dstart <;> simp [MarathonState.start, ifN, hd]

theorem C7_start_idempotent_witness :
    (MarathonState.start freshMarathon 5 = { freshMarathon with state := { freshMarathon.state with dstart := some 5 } }) ∧
    (MarathonState.start (MarathonState.start freshMarathon 5) 9 =
      { MarathonState.start freshMarathon 5 with state := { (MarathonState.start freshMarathon 5).state with dstart := some 5 } }) ∧
    MarathonState.start (MarathonState.start freshMarathon 5) 9 = MarathonState.start freshMarathon 5 :=
  ⟨(C7_start_idempotent freshMarathon 5 9).1 (by decide),
   (C7_start_idempotent (MarathonState.start freshMarathon 5) 9 0).2.1 5 (by decide),
   (C7_start_idempotent freshMarathon 5 9).2.2⟩

/-! ## C2: persistence round-trip and the derived cursor -/

lemma le_foldl_max (l : List Nat) (a : Nat) : a ≤ l.foldl max a := by
  induction l generalizing a with
  | nil => exact Nat.le_refl a
  | cons b t ih => exact Nat.le_trans (Nat.le_max_left a b) (ih (max a b))

lemma mem_le_foldl_max (l : List Nat) (a : Nat) : ∀ x ∈ l, x ≤ l.foldl max a := by
  induction l generalizing a with
  | nil => intro x hx; cases hx
  | cons b t ih =>
    intro x hx
    rcases List.mem_cons.mp hx with h | h
    · subst h
      exact Nat.le_trans (Nat.le_max_right a x) (le_foldl_max t (max a x))
    · exact ih (max a b) x h

lemma foldl_max_mem_or (l : List Nat) (a : Nat) : l.foldl max a ∈ l ∨ l.foldl max a = a := by
  induction l generalizing a with
  | nil => right; rfl
  | cons b t ih =>
    rcases ih (max a b) with h | h
    · left; exact List.mem_cons_of_mem _ h
    · rcases Nat.le_total a b with hab | hab
      · left
        rw [List.foldl_cons, h, Nat.max_eq_right hab]
        exact List.mem_cons_self _ _
      · right
        rw [List.foldl_cons, h, Nat.max_eq_left hab]

lemma foldl_max_mem (l : List Nat) (hne : l ≠ []) : l.foldl max 0 ∈ l := by
  rcases foldl_max_mem_or l 0 with h | h
  · exact h
  · cases l with
    | nil => exact absurd rfl hne
    | cons b t =>
      have hb : b ≤ (b :: t).foldl max 0 := mem_le_foldl_max _ 0 b (List.mem_cons_self _ _)
      rw [h] at hb
      rw [h]
      exact List.mem_cons.mpr (Or.inl (Nat.le_antisymm hb (Nat.zero_le b)).symm)

lemma mem_completedLevels {levels : List StageRec} {i : Nat} :
    i ∈ completedLevels levels ↔ i < levels.length ∧ (getRec levels i).end? ≠ none := by
  simp [completedLevels, List.mem_filter, List.mem_range]

/-- C2: persisting a `MarathonState` document and constructing a new
machine with `reload=true` (and the file present) reconstructs an
identical document — in particular an identical `stages` array — and
derives the cursor as `1 + max index with end set`, or `0` when no stage
has its end set. -/
theorem C2_roundtrip (m : MarathonState) :
    (MarathonState.mk0 true (some (MarathonState.save_state m))).state = m.state ∧
    (((MarathonState.mk0 true (some (MarathonState.save_state m))).level = 0 ∧
        ∀ i < m.state.levels.length, (getRec m.state.levels i).end? = none) ∨
      (∃ i, (MarathonState.mk0 true (some (MarathonState.save_state m))).level = i + 1 ∧
        (getRec m.state.levels i).end? ≠ none ∧
        ∀ j < m.state.levels.length, (getRec m.state.levels j).end? ≠ none → j ≤ i)) := by
  refine ⟨rfl, ?_⟩
  have hlev : (MarathonState.mk0 true (some (MarathonState.save_state m))).level
      = loadLevel m.state.levels := rfl
  by_cases hc : completedLevels m.state.levels = []
  · left
    constructor
    · rw [hlev]
      simp [loadLevel, hc]
    · intro i hi
      by_contra hne
      have : i ∈ completedLevels m.state.levels := mem_completedLevels.mpr ⟨hi, hne⟩
      rw [hc] at this
      cases this
  · right
    refine ⟨(completedLevels m.state.levels).foldl max 0, ?_, ?_, ?_⟩
    · rw [hlev]
      simp [loadLevel, hc]
    · exact (mem_completedLevels.mp (foldl_max_mem _ hc)).2
    · intro j hj hje
      exact mem_le_foldl_max _ 0 j (mem_completedLevels.mpr ⟨hj, hje⟩)

/-! ## C4: what can fire while the cursor is 0

`LEVEL_TO_MAP.get(0)` is `None`, so the reset branch can indeed never
fire at cursor 0; but `self.state['levels'][self.level-1]` is
`levels[-1]`, i.e. stage 102's record, so the stop branch DOES mutate a
stage record at cursor 0 whenever the loaded document has stage 102's
start set and end unset. -/

/-- A loadable document whose only populated field is stage 102's start
(no end is set anywhere, so the derived cursor is 0). -/
def badDoc : MarathonDoc :=
  ⟨none, none, (List.replicate 102 defaultRec).set 101 ⟨some 5, none⟩⟩

/-- The machine obtained by reloading `badDoc`. -/
def badState : MarathonState := MarathonState.mk0 true (some badDoc)

/-- C4 counterexample: reloading `badDoc` yields cursor 0, yet feeding
the (untracked) zone id 1 makes the stop branch set stage 102's end —
a stage-record mutation at cursor 0, contradicting the claim that no
branch but the start case can mutate state there. -/
theorem C4_counterexample :
    badState.level = 0 ∧
    getRec badState.state.levels 101 = ⟨some 5, none⟩ ∧
    getRec (MarathonState.update badState 1 10).state.levels 101 = ⟨some 5, some 10⟩ ∧
    (MarathonState.update badState 1 10).level = 0 := by
  decide

/-- C4 (amended): at cursor 0 the reset branch never fires, and provided
stage 102's record is not "in progress" (which holds for the fresh
document and for every document the program itself persists), the stop
branch does not fire either: the call is exactly the start case when the
fed zone is stage 1's zone, and a no-op otherwise. -/
theorem C4_cursor0_only_start (s : MarathonState) (z now : Nat)
    (h0 : s.level = 0)
    (h102 : ¬((getRec s.state.levels (s.state.levels.length - 1)).start? ≠ none ∧
             (getRec s.state.levels (s.state.levels.length - 1)).end? = none)) :
    MarathonState.update s z now =
      if some z = LEVEL_TO_MAP 1 then
        { state := { s.state with
            levels := s.state.levels.set 0 { getRec s.state.levels 0 with start? := some now } },
          level := 1 }
      else s := by
  have hz : some z ≠ LEVEL_TO_MAP 0 := by
    intro hcontra
    have hnone : LEVEL_TO_MAP 0 = none := by decide
    rw [hnone] at hcontra
    cases hcontra
  have hidx0 : pyIdx s.state.levels.length 0 = s.state.levels.length - 1 := rfl
  simp only [MarathonState.update, h0, hidx0]
  rw [if_neg hz, if_neg h102]
  simp only [h0]
  rfl

theorem C4_cursor0_only_start_witness :
    freshMarathon.level = 0 ∧
    ¬((getRec freshMarathon.state.levels (freshMarathon.state.levels.length - 1)).start? ≠ none ∧
      (getRec freshMarathon.state.levels (freshMarathon.state.levels.length - 1)).end? = none) ∧
    MarathonState.update freshMarathon 954 3 =
      (if some 954 = LEVEL_TO_MAP 1 then
        { state := { freshMarathon.state with
            levels := freshMarathon.state.levels.set 0 { getRec freshMarathon.state.levels 0 with start? := some 3 } },
          level := 1 }
      else freshMarathon) :=
  ⟨by decide, by decide, C4_cursor0_only_start freshMarathon 954 3 (by decide) (by decide)⟩

/-! ## C6: behaviour once the cursor has reached 102 -/

/-- A fully completed 102-stage document. -/
def doneLevels : List StageRec :=
  (List.range 102).map (fun i => ⟨some (2 * i), some (2 * i + 1)⟩)

/-- The machine obtained by reloading the fully completed document:
its derived cursor is 102. -/
def doneState : MarathonState := MarathonState.mk0 true (some ⟨some 0, none, doneLevels⟩)

set_option maxRecDepth 8000 in
/-- C6 counterexample: at cursor 102 with stage 102's end set, feeding
stage 102's own zone (1205) is NOT a no-op — the reset branch fires and
clears stage 102's end, so `update` is not inert "whatever zone id is
fed". -/
theorem C6_counterexample :
    doneState.level = 102 ∧
    (getRec doneState.state.levels 101).end? = some 203 ∧
    MarathonState.update doneState 1205 500 ≠ doneState ∧
    getRec (MarathonState.update doneState 1205 500).state.levels 101 = ⟨some 202, none⟩ := by
  decide

/-- C6 (amended): once the cursor is 102 and stage 102's end is set, the
advancing case can never fire again (`LEVEL_TO_MAP.get(103)` is `None`),
so the cursor stays at 102; `update` makes no state change for any fed
zone id other than stage 102's own zone, but feeding stage 102's zone
again fires the reset branch and clears stage 102's end. -/
theorem C6_level102_inert (s : MarathonState) (z now : Nat)
    (h : s.level = 102)
    (hend : (getRec s.state.levels 101).end? ≠ none) :
    (MarathonState.update s z now).level = 102 ∧
    (some z ≠ LEVEL_TO_MAP 102 → MarathonState.update s z now = s) ∧
    (some z = LEVEL_TO_MAP 102 → MarathonState.update s z now =
      { s with state := { s.state with
          levels := s.state.levels.set 101 { getRec s.state.levels 101 with end? := none } } }) := by
  have hidx : pyIdx s.state.levels.length s.level = 101 := by rw [h]; rfl
  have h103 : some z ≠ LEVEL_TO_MAP (s.level + 1) := by
    intro hcontra
    rw [h] at hcontra
    have hnone : LEVEL_TO_MAP (102 + 1) = none := by decide
    rw [hnone] at hcontra
    cases hcontra
  refine ⟨?_, ?_, ?_⟩
  · by_cases hz : some z = LEVEL_TO_MAP s.level
    · simp only [MarathonState.update, if_pos hz]
      split
      · exact h
      · exact h
    · simp only [MarathonState.update, if_neg hz, if_neg h103]
      split
      · exact h
      · exact h
  · intro hz
    have hz' : some z ≠ LEVEL_TO_MAP s.level := by rw [h]; exact hz
    have hstop : ¬((getRec s.state.levels (pyIdx s.state.levels.length s.level)).start? ≠ none ∧
        (getRec s.state.levels (pyIdx s.state.levels.length s.level)).end? = none) := by
      rw [hidx]
      exact fun hc => hend hc.2
    simp only [MarathonState.update, if_neg hz', if_neg hstop, if_neg h103]
  · intro hz
    have hz' : some z = LEVEL_TO_MAP s.level := by rw [h]; exact hz
    simp only [MarathonState.update, if_pos hz', hidx]
    rw [if_pos hend]

set_option maxRecDepth 8000 in
theorem C6_level102_inert_witness :
    (doneState.level = 102 ∧ (getRec doneState.state.levels 101).end? ≠ none) ∧
    (MarathonState.update doneState 1 500).level = 102 ∧
    MarathonState.update doneState 1 500 = doneState ∧
    MarathonState.update doneState 1205 500 =
      { doneState with state := { doneState.state with
          levels := doneState.state.levels.set 101 { getRec doneState.state.levels 101 with end? := none } } } :=
  ⟨⟨by decide, by decide⟩,
   (C6_level102_inert doneState 1 500 (by decide) (by decide)).1,
   (C6_level102_inert doneState 1 500 (by decide) (by decide)).2.1 (by decide),
   (C6_level102_inert doneState 1205 500 (by decide) (by decide)).2.2 (by decide)⟩

/-! ## C5: no gaps below the cursor, from a fresh machine -/

/-- `update` decomposed into its three blocks (shared helper). -/
lemma update_phases (s : MarathonState) (z now : Nat) :
    MarathonState.update s z now =
      if some z = LEVEL_TO_MAP s.level then resetPhase s
      else startPhase (stopPhase s now) z now := by
  by_cases hz : some z = LEVEL_TO_MAP s.level
  · rw [if_pos hz]
    simp only [MarathonState.update, resetPhase, if_pos hz]
  · rw [if_neg hz]
    simp only [MarathonState.update, stopPhase, startPhase]
    rw [if_neg hz]
    by_cases hstop : (getRec s.state.levels (pyIdx s.state.levels.length s.level)).start? ≠ none ∧
        (getRec s.state.levels (pyIdx s.state.levels.length s.level)).end? = none
    · rw [if_pos hstop]
    · rw [if_neg hstop]

lemma getRec_replicate (n i : Nat) : getRec (List.replicate n defaultRec) i = defaultRec := by
  unfold getRec
  rw [List.getD_eq_getElem?_getD, List.getElem?_replicate]
  split <;> rfl

/-- The inductive invariant of the marathon machine: 102 stage records,
cursor at most 102, no started stage while the cursor is 0, the current
stage started once the cursor is positive, and every stage strictly
below the current one both started and ended. -/
def MarathonInv (s : MarathonState) : Prop :=
  s.state.levels.length = 102 ∧
  s.level ≤ 102 ∧
  (s.level = 0 → ∀ i, (getRec s.state.levels i).start? = none) ∧
  (1 ≤ s.level → (getRec s.state.levels (s.level - 1)).start? ≠ none) ∧
  (∀ i, i + 1 < s.level → (getRec s.state.levels i).start? ≠ none ∧ (getRec s.state.levels i).end? ≠ none)

lemma inv_fresh : MarathonInv freshMarathon := by
  refine ⟨by decide, by decide, ?_, ?_, ?_⟩
  · intro _ i
    show (getRec (List.replicate 102 defaultRec) i).start? = none
    rw [getRec_replicate]
    rfl
  · intro hcontra
    exact absurd hcontra (by decide)
  · intro i hi
    have hlv : freshMarathon.level = 0 := by decide
    rw [hlv] at hi
    omega

lemma inv_resetPhase (s : MarathonState) (h : MarathonInv s) : MarathonInv (resetPhase s) := by
  obtain ⟨⟨ds, de, lv⟩, lev⟩ := s
  obtain ⟨hlen, hle, h0, hcur, hbelow⟩ := h
  dsimp only at hlen hle h0 hcur hbelow
  simp only [resetPhase]
  by_cases hend : (getRec lv (pyIdx lv.length lev)).end? ≠ none
  · rw [if_pos hend]
    have hidxlt : pyIdx lv.length lev < lv.length := by
      unfold pyIdx
      split <;> omega
    refine ⟨by simp [hlen], hle, ?_, ?_, ?_⟩
    · intro hlv0 i
      dsimp only at hlv0 ⊢
      by_cases hi : pyIdx lv.length lev = i
      · rw [← hi, getRec_set_self _ hidxlt]
        exact h0 hlv0 _
      · rw [getRec_set_ne _ hi]
        exact h0 hlv0 i
    · intro hl1
      dsimp only at hl1 ⊢
      have hidx : pyIdx lv.length lev = lev - 1 := by
        unfold pyIdx
        rw [if_neg (by omega)]
      rw [hidx] at hidxlt ⊢
      rw [getRec_set_self _ hidxlt]
      exact hcur hl1
    · intro i hi
      dsimp only at hi ⊢
      have hidx : pyIdx lv.length lev = lev - 1 := by
        unfold pyIdx
        rw [if_neg (by omega)]
      rw [hidx, getRec_set_ne _ (by omega : lev - 1 ≠ i)]
      exact hbelow i hi
  · rw [if_neg hend]
    exact ⟨hlen, hle, h0, hcur, hbelow⟩

lemma stopPhase_facts (s : MarathonState) (now : Nat) (h : MarathonInv s) :
    MarathonInv (stopPhase s now) ∧
    (stopPhase s now).level = s.level ∧
    (s.level = 0 → stopPhase s now = s) ∧
    (1 ≤ s.level → (getRec (stopPhase s now).state.levels (s.level - 1)).end? ≠ none) := by
  obtain ⟨⟨ds, de, lv⟩, lev⟩ := s
  obtain ⟨hlen, hle, h0, hcur, hbelow⟩ := h
  dsimp only at hlen hle h0 hcur hbelow
  simp only [stopPhase]
  by_cases hlv0 : lev = 0
  · have hstopF : ¬((getRec lv (pyIdx lv.length lev)).start? ≠ none ∧
        (getRec lv (pyIdx lv.length lev)).end? = none) := by
      intro hc
      exact hc.1 (h0 hlv0 _)
    rw [if_neg hstopF]
    exact ⟨⟨hlen, hle, h0, hcur, hbelow⟩, rfl, fun _ => rfl, fun hc => absurd hc (by omega)⟩
  · have hl1 : 1 ≤ lev := by omega
    have hidx : pyIdx lv.length lev = lev - 1 := by
      unfold pyIdx
      rw [if_neg hlv0]
    have hidxlt : lev - 1 < lv.length := by omega
    rw [hidx]
    by_cases hstop : (getRec lv (lev - 1)).start? ≠ none ∧
        (getRec lv (lev - 1)).end? = none
    · rw [if_pos hstop]
      refine ⟨⟨by simp [hlen], hle, fun hc => absurd hc hlv0, ?_, ?_⟩, rfl,
        fun hc => absurd hc hlv0, ?_⟩
      · intro hc
        dsimp only at hc ⊢
        rw [getRec_set_self _ hidxlt]
        exact hcur hl1
      · intro i hi
        dsimp only at hi ⊢
        rw [getRec_set_ne _ (by omega : lev - 1 ≠ i)]
        exact hbelow i hi
      · intro hc
        dsimp only
        rw [getRec_set_self _ hidxlt]
        exact Option.some_ne_none now
    · rw [if_neg hstop]
      refine ⟨⟨hlen, hle, h0, hcur, hbelow⟩, rfl, fun _ => rfl, ?_⟩
      intro _ hendnone
      exact hstop ⟨hcur hl1, hendnone⟩

lemma inv_startPhase (s : MarathonState) (z now : Nat) (h : MarathonInv s)
    (hready : 1 ≤ s.level → (getRec s.state.levels (s.level - 1)).start? ≠ none ∧
      (getRec s.state.levels (s.level - 1)).end? ≠ none) :
    MarathonInv (startPhase s z now) := by
  obtain ⟨⟨ds, de, lv⟩, lev⟩ := s
  obtain ⟨hlen, hle, h0, hcur, hbelow⟩ := h
  dsimp only at hlen hle h0 hcur hbelow hready
  simp only [startPhase]
  by_cases hstart : some z = LEVEL_TO_MAP (lev + 1)
  · rw [if_pos hstart]
    have hb : lev + 1 ≤ 102 := by
      have := level_to_map_bound (n := lev + 1) (fun hc => by rw [hc] at hstart; cases hstart)
      exact this.2
    have hj : pyIdx lv.length (lev + 1) = lev := by
      unfold pyIdx
      rw [if_neg (Nat.succ_ne_zero _)]
      omega
    have hjlt : lev < lv.length := by omega
    rw [hj]
    refine ⟨by simp [hlen], hb, fun hc => absurd hc (Nat.succ_ne_zero _), ?_, ?_⟩
    · intro hc
      dsimp only
      rw [Nat.add_sub_cancel, getRec_set_self _ hjlt]
      exact Option.some_ne_none now
    · intro i hi
      dsimp only at hi ⊢
      rw [getRec_set_ne _ (by omega : lev ≠ i)]
      rcases Nat.lt_or_ge (i + 1) lev with hcase | hcase
      · exact hbelow i hcase
      · have hieq : i = lev - 1 := by omega
        have hl1 : 1 ≤ lev := by omega
        rw [hieq]
        exact hready hl1
  · rw [if_neg hstart]
    exact ⟨hlen, hle, h0, hcur, hbelow⟩

lemma inv_update (s : MarathonState) (z now : Nat) (h : MarathonInv s) :
    MarathonInv (MarathonState.update s z now) := by
  rw [update_phases]
  by_cases hz : some z = LEVEL_TO_MAP s.level
  · rw [if_pos hz]
    exact inv_resetPhase s h
  · rw [if_neg hz]
    obtain ⟨h1, h2, _h3, h4⟩ := stopPhase_facts s now h
    refine inv_startPhase (stopPhase s now) z now h1 ?_
    rw [h2]
    intro hl1
    have hc4 := h1.2.2.2.1
    rw [h2] at hc4
    exact ⟨hc4 hl1, h4 hl1⟩

lemma inv_mstep (s : MarathonState) (op : MOp × Nat) (h : MarathonInv s) :
    MarathonInv (mstep s op) := by
  rcases op with ⟨o, t⟩
  cases o with
  | startOp => exact h
  | stopOp => exact h
  | updateOp z => exact inv_update s z t h

lemma inv_mrun (s : MarathonState) (tr : List (MOp × Nat)) (h : MarathonInv s) :
    MarathonInv (mrun s tr) := by
  induction tr generalizing s with
  | nil => exact h
  | cons op t ih => exact ih (mstep s op) (inv_mstep s op h)

/-- C5: starting from a fresh (non-reloaded) `MarathonState`, after any
sequence of start/stop/update calls there are no gaps below the cursor:
every stage record at index strictly less than cursor − 1 has both its
start and its end set. -/
theorem C5_no_gaps_below_cursor (tr : List (MOp × Nat)) (i : Nat)
    (hi : i + 1 < (mrun freshMarathon tr).level) :
    (getRec (mrun freshMarathon tr).state.levels i).start? ≠ none ∧
    (getRec (mrun freshMarathon tr).state.levels i).end? ≠ none :=
  (inv_mrun freshMarathon tr inv_fresh).2.2.2.2 i hi

theorem C5_no_gaps_below_cursor_witness :
    0 + 1 < (mrun freshMarathon [(MOp.updateOp 954, 1), (MOp.updateOp 947, 2)]).level ∧
    ((getRec (mrun freshMarathon [(MOp.updateOp 954, 1), (MOp.updateOp 947, 2)]).state.levels 0).start? ≠ none ∧
     (getRec (mrun freshMarathon [(MOp.updateOp 954, 1), (MOp.updateOp 947, 2)]).state.levels 0).end? ≠ none) :=
  ⟨by decide, C5_no_gaps_below_cursor [(MOp.updateOp 954, 1), (MOp.updateOp 947, 2)] 0 (by decide)⟩

/-! ## C8 and C9: the daily timer's update transitions -/

/-- C8: feeding `update` the zone id already recorded as the active zone
is a pure no-op on the state; the call just recomputes and returns the
current display triple. -/
theorem C8_same_zone_noop (s : FractalState) (z now : Nat) (cm : Option Nat)
    (hcm : s.current_map = some cm) (hz : cm = some z) :
    FractalState.update s z now = (s, freturnTriple s now) := by
  simp only [FractalState.update, hcm]
  rw [if_pos hz]

/-- A daily timer that was started at 0 and entered zone 956 at 1. -/
def wFractal : FractalState :=
  (FractalState.update (FractalState.start freshFractal 0).1 956 1).1

theorem C8_same_zone_noop_witness :
    wFractal.current_map = some (some 956) ∧
    FractalState.update wFractal 956 2 = (wFractal, freturnTriple wFractal 2) :=
  ⟨by decide, C8_same_zone_noop wFractal 956 2 (some 956) (by decide) (by decide)⟩

/-- C9: feeding a tracked zone id different from the active one replaces
the occupancy fields — `activeZone := z`, name from the registry,
`zoneStart := now`, `zoneEnd` cleared — and nothing else: in particular
the previous instance's end timestamp is never written (the stop branch
does not run first), it is simply discarded.  This fires even when a
previous tracked zone was active and not yet closed. -/
theorem C9_new_tracked_zone (s : FractalState) (z now : Nat) (cm : Option Nat)
    (hcm : s.current_map = some cm) (hne : cm ≠ some z)
    (htr : (mapName z).isSome = true) :
    (FractalState.update s z now).1 =
      { s with current_map := some (some z),
               current_map_name := some ((mapName z).getD ""),
               current_start := some (some now),
               current_end := some none } := by
  simp only [FractalState.update, hcm]
  rw [if_neg hne, if_pos htr]

theorem C9_new_tracked_zone_witness :
    wFractal.current_map = some (some 956) ∧
    wFractal.current_end = some none ∧
    some (956 : Nat) ≠ some 948 ∧
    (mapName 948).isSome = true ∧
    (FractalState.update wFractal 948 2).1 =
      { wFractal with current_map := some (some 948),
                      current_map_name := some ((mapName 948).getD ""),
                      current_start := some (some 2),
                      current_end := some none } :=
  ⟨by decide, by decide, by decide, by decide,
   C9_new_tracked_zone wFractal 948 2 (some 956) (by decide) (by decide) (by decide)⟩

/-! ## C10: behaviour of the never-initialized `FractalState` -/

/-- All six instance attributes exist on the object. -/
def AllSet (s : FractalState) : Prop :=
  s.astart.isSome = true ∧ s.aend.isSome = true ∧ s.current_map.isSome = true ∧
  s.current_map_name.isSome = true ∧ s.current_start.isSome = true ∧ s.current_end.isSome = true

instance (s : FractalState) : Decidable (AllSet s) := by
  unfold AllSet
  infer_instance

lemma total_time_ok (s : FractalState) (now : Nat) {a : Nat} {e : Option Nat}
    (ha : s.astart = some a) (he : s.aend = some e) :
    s.total_time now = Except.ok (strtime a (ifN e now)) := by
  simp [FractalState.total_time, ha, he]

lemma instance_time_ok (s : FractalState) (now : Nat) {cs ce : Option Nat}
    (hcs : s.current_start = some cs) (hce : s.current_end = some ce) :
    ∃ t, s.instance_time now = Except.ok t := by
  simp only [FractalState.instance_time, hcs]
  by_cases ht : truthy cs = true
  · rw [if_pos ht, hce]
    exact ⟨_, rfl⟩
  · rw [if_neg ht]
    exact ⟨"", rfl⟩

lemma flogAndReturn_ok (s : FractalState) (now : Nat) (h : AllSet s) :
    ∃ t, flogAndReturn s now = Except.ok t := by
  obtain ⟨ha, he, hm, hn, hcs, hce⟩ := h
  obtain ⟨a, ha'⟩ := Option.isSome_iff_exists.mp ha
  obtain ⟨e, he'⟩ := Option.isSome_iff_exists.mp he
  obtain ⟨m, hm'⟩ := Option.isSome_iff_exists.mp hm
  obtain ⟨n, hn'⟩ := Option.isSome_iff_exists.mp hn
  obtain ⟨cs, hcs'⟩ := Option.isSome_iff_exists.mp hcs
  obtain ⟨ce, hce'⟩ := Option.isSome_iff_exists.mp hce
  obtain ⟨it, hit⟩ := instance_time_ok s now hcs' hce'
  rw [flogAndReturn, total_time_ok s now ha' he', hit, hm', hn']
  exact ⟨_, rfl⟩

lemma freturnTriple_ok (s : FractalState) (now : Nat) (h : AllSet s) :
    ∃ t, freturnTriple s now = Except.ok t := by
  obtain ⟨ha, he, hm, hn, hcs, hce⟩ := h
  obtain ⟨a, ha'⟩ := Option.isSome_iff_exists.mp ha
  obtain ⟨e, he'⟩ := Option.isSome_iff_exists.mp he
  obtain ⟨n, hn'⟩ := Option.isSome_iff_exists.mp hn
  obtain ⟨cs, hcs'⟩ := Option.isSome_iff_exists.mp hcs
  obtain ⟨ce, hce'⟩ := Option.isSome_iff_exists.mp hce
  obtain ⟨it, hit⟩ := instance_time_ok s now hcs' hce'
  rw [freturnTriple, total_time_ok s now ha' he', hit, hn']
  exact ⟨_, rfl⟩

lemma update_allset (s : FractalState) (z now : Nat) (h : AllSet s) :
    AllSet (FractalState.update s z now).1 ∧
    ∃ t, (FractalState.update s z now).2 = Except.ok t := by
  obtain ⟨ha, he, hm, hn, hcs, hce⟩ := h
  obtain ⟨m, hm'⟩ := Option.isSome_iff_exists.mp hm
  simp only [FractalState.update, hm']
  by_cases h1 : m = some z
  · rw [if_pos h1]
    exact ⟨⟨ha, he, hm, hn, hcs, hce⟩, freturnTriple_ok s now ⟨ha, he, hm, hn, hcs, hce⟩⟩
  · rw [if_neg h1]
    by_cases h2 : (mapName z).isSome = true
    · rw [if_pos h2]
      have hall : AllSet ({ s with
          current_map := some (some z),
          current_map_name := some ((mapName z).getD ""),
          current_start := some (some now),
          current_end := some none } : FractalState) := ⟨ha, he, rfl, rfl, rfl, rfl⟩
      exact ⟨hall, flogAndReturn_ok _ now hall⟩
    · rw [if_neg h2]
      cases m with
      | some m' =>
        have hall : AllSet ({ s with
            current_map := some none,
            current_end := some (some now) } : FractalState) := ⟨ha, he, rfl, hn, hcs, rfl⟩
        exact ⟨hall, flogAndReturn_ok _ now hall⟩
      | none =>
        exact ⟨⟨ha, he, hm, hn, hcs, hce⟩, freturnTriple_ok s now ⟨ha, he, hm, hn, hcs, hce⟩⟩

lemma stop_allset (s : FractalState) (now : Nat) (h : AllSet s) :
    AllSet (FractalState.stop s now).1 ∧
    ∃ t, (FractalState.stop s now).2 = Except.ok t := by
  obtain ⟨ha, he, hm, hn, hcs, hce⟩ := h
  have hall : AllSet ({ s with
      current_end := some (some now),
      aend := some (some now) } : FractalState) := ⟨ha, rfl, hm, hn, hcs, rfl⟩
  exact ⟨hall, flogAndReturn_ok _ now hall⟩

lemma start_allset (s : FractalState) (now : Nat) :
    AllSet (FractalState.start s now).1 ∧
    ∃ t, (FractalState.start s now).2 = Except.ok t := by
  have hall : AllSet (FractalState.mk (some now) (some none) (some none)
      (some "") (some none) (some none)) :=
    ⟨rfl, rfl, rfl, rfl, rfl, rfl⟩
  exact ⟨hall, flogAndReturn_ok _ now hall⟩

/-- C10 counterexample: on a freshly constructed object (whose
initializer `__init` never ran), `stop()` does NOT fail with an
`AttributeError`: it fails with a `TypeError`, because `self.start`
resolves to the bound method and `strtime` subtracts it from an int. -/
theorem C10_counterexample :
    (FractalState.stop freshFractal 7).2 = Except.error PyErr.typeError ∧
    PyErr.typeError ≠ PyErr.attributeError := by
  decide

/-- C10 (amended): a freshly constructed `FractalState` has no
attributes; before `start`, `update`, `total_time` and `instance_time`
fail with `AttributeError` (and `update` leaves the object untouched),
while `stop` fails with `TypeError`; after `start` every attribute
exists, and on any object with all attributes set every operation
succeeds and keeps all attributes set. -/
theorem C10_uninitialized (z now : Nat) (s : FractalState) (hs : AllSet s) :
    ((FractalState.update freshFractal z now).2 = Except.error PyErr.attributeError ∧
      (FractalState.update freshFractal z now).1 = freshFractal) ∧
    FractalState.total_time freshFractal now = Except.error PyErr.attributeError ∧
    FractalState.instance_time freshFractal now = Except.error PyErr.attributeError ∧
    (FractalState.stop freshFractal now).2 = Except.error PyErr.typeError ∧
    AllSet (FractalState.start freshFractal now).1 ∧
    ((∃ t, (FractalState.update s z now).2 = Except.ok t) ∧ AllSet (FractalState.update s z now).1 ∧
     (∃ t, (FractalState.stop s now).2 = Except.ok t) ∧ AllSet (FractalState.stop s now).1 ∧
     (∃ t, (FractalState.start s now).2 = Except.ok t) ∧ AllSet (FractalState.start s now).1 ∧
     (∃ t, FractalState.total_time s now = Except.ok t) ∧
     (∃ t, FractalState.instance_time s now = Except.ok t)) := by
  obtain ⟨ha, he, hm, hn, hcs, hce⟩ := hs
  obtain ⟨a, ha'⟩ := Option.isSome_iff_exists.mp ha
  obtain ⟨e, he'⟩ := Option.isSome_iff_exists.mp he
  obtain ⟨cs, hcs'⟩ := Option.isSome_iff_exists.mp hcs
  obtain ⟨ce, hce'⟩ := Option.isSome_iff_exists.mp hce
  refine ⟨⟨rfl, rfl⟩, rfl, rfl, rfl, (start_allset freshFractal now).1, ?_, ?_, ?_, ?_, ?_, ?_, ?_, ?_⟩
  · exact (update_allset s z now ⟨ha, he, hm, hn, hcs, hce⟩).2
  · exact (update_allset s z now ⟨ha, he, hm, hn, hcs, hce⟩).1
  · exact (stop_allset s now ⟨ha, he, hm, hn, hcs, hce⟩).2
  · exact (stop_allset s now ⟨ha, he, hm, hn, hcs, hce⟩).1
  · exact (start_allset s now).2
  · exact (start_allset s now).1
  · exact ⟨_, total_time_ok s now ha' he'⟩
  · exact instance_time_ok s now hcs' hce'

theorem C10_uninitialized_witness :
    AllSet wFractal ∧
    ((FractalState.update freshFractal 956 7).2 = Except.error PyErr.attributeError ∧
      (FractalState.update freshFractal 956 7).1 = freshFractal) ∧
    (FractalState.stop freshFractal 7).2 = Except.error PyErr.typeError ∧
    (∃ t, (FractalState.update wFractal 956 7).2 = Except.ok t) :=
  ⟨by decide,
   (C10_uninitialized 956 7 wFractal (by decide)).1,
   (C10_uninitialized 956 7 wFractal (by decide)).2.2.2.1,
   (C10_uninitialized 956 7 wFractal (by decide)).2.2.2.2.2.1⟩
